import Mathlib

/-!
Verification development for the lead-intake HTTP service
(`src/server.js`, `src/unnamed/part_000`).

The JavaScript handlers are shallowly embedded as pure Lean functions:

* request bodies are association lists of string fields (the bodies arrive
  via `express.urlencoded`/`express.json`, so values consumed by the primary
  lead path are strings; the HeyForm/Zapier paths use a small JS-value type);
* the in-memory `recentIps` sliding window is passed explicitly as a
  `List Int` of millisecond timestamps;
* the two outbound network calls (Turnstile verification, Bitrix webhook) are
  external effects and enter the model as parameters describing their
  outcome; `crypto.randomBytes` enters as the list of drawn bytes;
* JS string helpers (`trim`, `startsWith`, `includes`, `toLowerCase`,
  regexes over `\S`/`\D`) are re-implemented over `List Char`.  JS `\s` also
  covers some rare Unicode spaces that `Char.isWhitespace`-style predicates
  do not; all inputs exercised here are ASCII, where the two agree.

Definitions mirror the source; theorems settle the frozen claims.
-/

namespace LeadIntake

/-- JS whitespace (`\s`) for the character classes used by the regexes of
the server and by `String.prototype.trim`; ASCII coverage. -/
def jsWs (c : Char) : Bool :=
  c = ' ' || c = '\t' || c = '\n' || c = '\r' || c = '\x0b' || c = '\x0c'

/-- Drop leading JS-whitespace from a character list. -/
def dropWs : List Char → List Char
  | [] => []
  | c :: cs => if jsWs c then dropWs cs else c :: cs

/-- Characters of `String.prototype.trim`: strip whitespace at both ends. -/
def trimChars (cs : List Char) : List Char :=
  (dropWs (dropWs cs.reverse).reverse)

/-- Model of `s.trim()`. -/
def jsTrim (s : String) : String := ⟨trimChars s.data⟩

/-- Tests whether `p` is a prefix of `s` (JS `String.prototype.startsWith`). -/
def strStarts : List Char → List Char → Bool
  | [], _ => true
  | _ :: _, [] => false
  | a :: as, b :: bs => a == b && strStarts as bs

/-- Tests whether `p` occurs as a contiguous substring of `s` (JS `String.prototype.includes`). -/
def strIncludes (p : List Char) : List Char → Bool
  | [] => p.isEmpty
  | c :: rest => strStarts p (c :: rest) || strIncludes p rest

/-- JS `toLowerCase` (ASCII range, which is all the server compares). -/
def lowerChars (cs : List Char) : List Char := cs.map Char.toLower

/-- JS `s.replace(/\D/g, "")`: keep only decimal digits. -/
def digitsOf (s : String) : List Char := s.data.filter Char.isDigit

/-- Field lookup in a request body (JS object property access; express
parses each body into an object with unique keys). -/
def getField (body : List (String × String)) (k : String) : Option String :=
  (body.find? (fun kv => kv.1 == k)).map (·.2)

/-- Field lookup defaulting to the empty string (JS `body.x || ""`
for string-valued fields, where only `""` is falsy). -/
def fieldOr (body : List (String × String)) (k : String) : String :=
  (getField body k).getD ""

/-- One witness position for the loose email regex `/\S+@\S+\.\S+/`:
`cs[i] = '@'`, `cs[j] = '.'`, a non-whitespace character immediately
before the `@` and after the `.`, and only non-whitespace strictly
between them.  The `test` of the regex succeeds iff such `i`, `j` exist. -/
def EmailIdx (cs : List Char) (i j : Nat) : Prop :=
  1 ≤ i ∧ i + 2 ≤ j ∧ j + 1 < cs.length ∧
  cs.getD i ' ' = '@' ∧ cs.getD j ' ' = '.' ∧
  jsWs (cs.getD (i - 1) ' ') = false ∧
  (∀ k, k < j → i < k → jsWs (cs.getD k ' ') = false) ∧
  jsWs (cs.getD (j + 1) ' ') = false

instance (cs : List Char) (i j : Nat) : Decidable (EmailIdx cs i j) := by
  unfold EmailIdx; infer_instance

/-- Declarative reading of the loose pattern: some decomposition
"non-whitespace, `@`, non-whitespace, `.`, non-whitespace" occurs in `s`. -/
def LooseEmail (s : String) : Prop := ∃ i j, EmailIdx s.data i j

/-- Executable model of `/\S+@\S+\.\S+/.test(s)`. -/
def emailLoose (s : String) : Bool :=
  (List.range s.data.length).any fun i =>
    (List.range s.data.length).any fun j => decide (EmailIdx s.data i j)

/-- Function `validatePayload` from `src/server.js` (identical in both revisions and
in `src/unnamed/part_000`): email matches the loose regex, trimmed phone has
length ≥ 7, trimmed name has length ≥ 2, trimmed sku is non-empty.  A field
absent from the body fails its `typeof === "string"` test. -/
def validatePayload (body : List (String × String)) : Bool :=
  let okEmail := match getField body "email" with
    | some e => emailLoose e
    | none => false
  let okPhone := match getField body "phone" with
    | some p => 7 ≤ (trimChars p.data).length
    | none => false
  let okName := match getField body "name" with
    | some n => 2 ≤ (trimChars n.data).length
    | none => false
  let okSku := match getField body "sku" with
    | some s => 0 < (trimChars s.data).length
    | none => false
  okEmail && okPhone && okName && okSku

/-- Lowercase hex digit for a value `< 16` (Node `Buffer.toString("hex")`). -/
def hexChar (n : Nat) : Char :=
  if n < 10 then Char.ofNat (48 + n) else Char.ofNat (87 + n)

/-- Hex encoding of one byte: two lowercase hex digits. -/
def byteHex (b : Nat) : List Char := [hexChar (b / 16), hexChar (b % 16)]

/-- Model of `buf.toString("hex")` on a byte list. -/
def bytesToHex (bs : List Nat) : String := ⟨(bs.map byteHex).flatten⟩

/-- Model of `crypto.randomBytes(8).toString("hex")`: the handler consumes
eight bytes of the supplied random stream. -/
def leadIdOf (rand : List Nat) : String := bytesToHex (rand.take 8)

/-- The JSON body each handler sends back, together with the HTTP status
(`res.status(...)`; `res.json` alone keeps the default 200). -/
structure LeadResponse where
  status : Nat
  ok : Bool
  message : String
  lead_id : Option String
deriving DecidableEq, Repr

/-- Allow-list from the origin checks of `/api/lead` and `/api/heyform`. -/
def allowedOrigins : List String := ["onkron.us", "www.onkron.us", "onkron.com"]

/-- Model of the header normalization: drop one trailing slash from the origin. -/
def stripSlash (s : String) : String :=
  match s.data.reverse with
  | '/' :: rest => ⟨rest.reverse⟩
  | _ => s

/-- The origin guard shared by `/api/lead` and `/api/heyform`: block when the
slash-stripped origin is non-empty (truthy) and contains no allow-listed
entry as a substring; a missing header yields `""` and passes. -/
def originBlocked (origin : Option String) : Bool :=
  let o := stripSlash (origin.getD "")
  o ≠ "" && !(allowedOrigins.any fun a => strIncludes a.data o.data)

/-- Honeypot scan of `/api/lead`: some field whose key starts with `hp_`
carries a truthy value that is non-blank after trimming. -/
def honeypotTriggered (body : List (String × String)) : Bool :=
  body.any fun kv =>
    strStarts "hp_".data kv.1.data && kv.2 ≠ "" && jsTrim kv.2 ≠ ""

/-- Model of the test `^[A-Za-z\s]+$`: non-empty, all Latin letters or whitespace. -/
def isLatinName (s : String) : Bool :=
  !s.data.isEmpty && s.data.all fun c =>
    (('A' ≤ c && c ≤ 'Z') || ('a' ≤ c && c ≤ 'z') || jsWs c)

/-- Model of the test `[А-Яа-яЁё]`: contains a Cyrillic letter. -/
def hasCyrillic (s : String) : Bool :=
  s.data.any fun c => ('А' ≤ c && c ≤ 'я') || c = 'Ё' || c = 'ё'

/-- The "suspicious name+phone combo" test of `/api/lead`: Latin-only name
with digit-stripped phone starting `7`, or Cyrillic name with phone
starting `1`. -/
def suspiciousCombo (body : List (String × String)) : Bool :=
  let name := jsTrim (fieldOr body "name")
  let phone := digitsOf (fieldOr body "phone")
  (isLatinName name && phone.head? == some '7') ||
  (hasCyrillic name && phone.head? == some '1')

/-- Model of `history.filter((t) => now - t < 60000)`: entries of the 60-second
window still alive at `now` (timestamps in milliseconds). -/
def pruneWindow (now : Int) (history : List Int) : List Int :=
  history.filter fun t => now - t < 60000

/-- One rate-accounting step: prune, then append the current timestamp
(`[...history.filter(...), now]`), stored back into `recentIps`. -/
def rateStep (now : Int) (history : List Int) : List Int :=
  pruneWindow now history ++ [now]

/-- The `recentIps` entry of one IP after it submits at each time in `ts`
in order, starting from an absent entry (`recentIps.get(ip) || []`). -/
def windowAfter (ts : List Int) : List Int :=
  ts.foldl (fun h t => rateStep t h) []

/-- Table `sourceMap` of `/api/lead` (labels in the source are Russian;
only the keys matter to the contract). -/
def sourceMap : List (String × String) :=
  [("openWholesaleHeader", "header"), ("openWholesaleFooter", "footer"),
   ("solutions", "solutions page"), ("distributor", "distributor page"),
   ("page", "page"), ("modal", "product modal")]

/-- Source attribution: `button_id` wins over `source`; known keys map
through `sourceMap`, unknown keys pass through, absence yields "unknown". -/
def sourceLabel (body : List (String × String)) : String :=
  match getField body "button_id" with
  | some b => if b ≠ "" then ((sourceMap.find? (fun kv => kv.1 == b)).map (·.2)).getD b
              else match getField body "source" with
                   | some s => if s ≠ "" then ((sourceMap.find? (fun kv => kv.1 == s)).map (·.2)).getD s
                               else "unknown"
                   | none => "unknown"
  | none => match getField body "source" with
            | some s => if s ≠ "" then ((sourceMap.find? (fun kv => kv.1 == s)).map (·.2)).getD s
                        else "unknown"
            | none => "unknown"

/-- Outcome of the outbound Bitrix webhook `fetch` (an external effect):
not configured, a reply whose body parsed, a transport failure, or a reply
whose body failed to parse.  The handler wraps the call in `try/catch`, so
the outcome can only be observed through logs. -/
inductive BitrixOutcome where
  | notConfigured
  | replied (body : String)
  | networkError
  | parseError
deriving DecidableEq, Repr

/-- The `/api/lead` handler of `src/server.js` (current revision): origin
guard, honeypot, (log-only fill-time check), `validatePayload`, suspicious
name+phone combo, manual per-IP rate accounting with ceiling 3, lead id,
best-effort Bitrix forward, success reply.  Returns the response and the
updated `recentIps` entry for the IP of the caller. -/
def leadHandler (origin : Option String) (body : List (String × String))
    (history : List Int) (now : Int) (rand : List Nat) (_bitrix : BitrixOutcome) :
    LeadResponse × List Int :=
  if originBlocked origin then
    (⟨403, false, "Invalid origin", none⟩, history)
  else if honeypotTriggered body then
    (⟨400, false, "Bot detected (honeypot)", none⟩, history)
  -- `form_time` below 1 is only logged, never blocked
  else if !validatePayload body then
    (⟨400, false, "Invalid input", none⟩, history)
  else if suspiciousCombo body then
    (⟨450, false, "Suspicious name+phone combo", none⟩, history)
  else
    let newHistory := rateStep now history
    if 3 < newHistory.length then
      (⟨429, false, "Too many requests", none⟩, newHistory)
    else
      -- the Bitrix fetch sits in try/catch: every outcome falls through
      (⟨200, true, "Lead saved", some (leadIdOf rand)⟩, newHistory)

/-! ## CAPTCHA revision (`src/unnamed/part_000`, duplicated as the second
revision inside `src/server.js`) -/

/-- Parsed JSON reply of the Turnstile `siteverify` endpoint as the handler
reads it: only `success` is consulted; `score`, when the provider sends
one, is carried but never read by the code. -/
structure TurnstileReply where
  success : Bool
  score : Option ℚ
deriving DecidableEq

/-- Result of `await verifyTurnstile(...)`: a parsed reply, or a thrown
transport/parse error (which escapes to the outer `catch` of the handler). -/
inductive TurnstileCall where
  | reply (r : TurnstileReply)
  | transportError
deriving DecidableEq

/-- The `/api/lead` handler of the CAPTCHA revision: `hp_field` truthy check,
`validatePayload`, mandatory `turnstileToken`, `verify?.success` gate, lead
id, success reply.  A thrown verification call reaches the outer `catch`
and yields the generic 500. -/
def leadHandlerV0 (body : List (String × String)) (verify : TurnstileCall)
    (rand : List Nat) : LeadResponse :=
  if fieldOr body "hp_field" ≠ "" then
    ⟨400, false, "Bot detected", none⟩
  else if !validatePayload body then
    ⟨400, false, "Invalid input", none⟩
  else if fieldOr body "turnstileToken" = "" then
    ⟨400, false, "Captcha token required", none⟩
  else
    match verify with
    | .transportError => ⟨500, false, "Server error", none⟩
    | .reply r =>
      if !r.success then
        ⟨403, false, "Captcha verification failed", none⟩
      else
        ⟨200, true, "Lead saved", some (leadIdOf rand)⟩

/-! ## HeyForm path (`/api/heyform` in `src/server.js`) -/

/-- JS values reaching `normalizeValue`/the Zapier merge: `undef` stands for
`undefined`/`null` (both falsy, both rejected by `typeof`-style branches
before any property access), objects carry their name parts
(`first`/`firstName` collapsed, likewise `last`) plus their
`JSON.stringify` image. -/
inductive JVal where
  | undef
  | vstr (s : String)
  | vnum (n : Int)
  | vbool (b : Bool)
  | vobj (first last json : String)
deriving DecidableEq, Repr

/-- JS truthiness on `JVal`. -/
def jTruthy : JVal → Bool
  | .undef => false
  | .vstr s => s ≠ ""
  | .vnum n => n ≠ 0
  | .vbool b => b
  | .vobj _ _ _ => true

/-- JS `a || b`. -/
def jor (a b : JVal) : JVal := if jTruthy a then a else b

/-- Title of an answer: it can arrive as a string or an array of strings. -/
inductive JTitle where
  | tundef
  | tstr (s : String)
  | tarr (ss : List String)
deriving DecidableEq, Repr

/-- Function `normalizeValue` from the HeyForm handler: falsy values become `""`;
strings are trimmed; numbers stringified; objects become `"first last"`
when either name part is present, else their JSON serialization. -/
def normalizeValue : JVal → String
  | .undef => ""
  | .vstr s => if s = "" then "" else jsTrim s
  | .vnum n => if n = 0 then "" else toString n
  | .vbool b => if b then "true" else ""
  | .vobj f l json => if f ≠ "" || l ≠ "" then jsTrim (f ++ " " ++ l) else json

/-- Function `normalizeTitle` from the HeyForm handler: falsy titles become `""`;
arrays are joined with spaces and trimmed; strings trimmed. -/
def normalizeTitle : JTitle → String
  | .tundef => ""
  | .tstr s => if s = "" then "" else jsTrim s
  | .tarr ss => jsTrim (String.intercalate " " ss)

/-- One element of `body.answers`. -/
structure HeyAnswer where
  title : JTitle
  value : JVal
deriving DecidableEq, Repr

/-- Lookup `mapValue(title)`: the first answer whose normalized, lowercased title
contains the lowercased keyword, its value normalized; `""` when no answer
matches (`normalizeValue(undefined)`). -/
def mapValue (answers : List HeyAnswer) (title : String) : String :=
  match answers.find? (fun a =>
      strIncludes (lowerChars title.data) (lowerChars (normalizeTitle a.title).data)) with
  | some a => normalizeValue a.value
  | none => ""

/-- Hex digit value for `%`-escapes (JS accepts both cases). -/
def hexVal : Char → Option Nat
  | c =>
    if '0' ≤ c ∧ c ≤ '9' then some (c.toNat - 48)
    else if 'a' ≤ c ∧ c ≤ 'f' then some (c.toNat - 87)
    else if 'A' ≤ c ∧ c ≤ 'F' then some (c.toNat - 70 + 10)
    else none

/-- Scanner behind `decodeURIOk`: `k` counts the UTF-8 continuation bytes
still owed by a preceding `%`-escaped lead byte.  Unescaped characters are
only legal when no continuation is pending. -/
def uriOkAux : Nat → List Char → Bool
  | 0, [] => true
  | _ + 1, [] => false
  | k, '%' :: c1 :: c2 :: rest =>
    match hexVal c1, hexVal c2 with
    | some h, some l =>
      let b := 16 * h + l
      (match k with
       | 0 =>
         if b < 0x80 then uriOkAux 0 rest
         else if b < 0xC0 then false
         else if b < 0xE0 then uriOkAux 1 rest
         else if b < 0xF0 then uriOkAux 2 rest
         else if b < 0xF5 then uriOkAux 3 rest
         else false
       | k' + 1 => if 0x80 ≤ b ∧ b < 0xC0 then uriOkAux k' rest else false)
    | _, _ => false
  | _, '%' :: [] => false
  | _, ['%', _] => false
  | 0, _ :: rest => uriOkAux 0 rest
  | _ + 1, _ :: _ => false

/-- Does `decodeURIComponent(s)` return (rather than throw `URIError`)?
Every `%` must start a two-hex-digit escape and escaped bytes must form
UTF-8 sequences.  (Overlong/surrogate refinements are not modelled; no
input in this development uses multi-byte escapes.)  The HeyForm handler
calls `decodeURIComponent` outside any inner `try`, so a throw becomes the
generic 500. -/
def decodeURIOk (s : String) : Bool := uriOkAux 0 s.data

/-- The HeyForm request body: `answers` is `none` when absent/null (the
`Array.isArray` gate), `hiddenFields` is the `{name, value}` list, and
`extra` carries the remaining top-level fields, the only ones whose keys
can match the `obscurepot` honeypot prefix. -/
structure HeyBody where
  answers : Option (List HeyAnswer)
  hiddenFields : List (String × String)
  formName : String
  extra : List (String × String)
deriving DecidableEq, Repr

/-- Honeypot scan of `/api/heyform`: a top-level key starting with
`obscurepot` holding a truthy, non-blank-after-trim value. -/
def heyHoneypot (body : HeyBody) : Bool :=
  body.extra.any fun kv =>
    strStarts "obscurepot".data kv.1.data && kv.2 ≠ "" && jsTrim kv.2 ≠ ""

/-- Name extraction, `mapValue("name") || mapValue("contact name")`. -/
def heyName (answers : List HeyAnswer) : String :=
  let n := mapValue answers "name"
  if n ≠ "" then n else mapValue answers "contact name"

/-- Sku extraction, `mapValue("SKU/Info") || ""`. -/
def heySku (answers : List HeyAnswer) : String := mapValue answers "SKU/Info"

/-- Hidden-field lookup, `hiddenFields.find((f) => f.name === n)?.value || ""`. -/
def hiddenField (body : HeyBody) (n : String) : String :=
  ((body.hiddenFields.find? (fun f => f.1 == n)).map (·.2)).getD ""

/-- The `/api/heyform` handler: origin guard, `obscurepot` honeypot,
`answers` structure check, `mapValue` extraction, hidden-field decode
(outside the inner `try`, hence 500 on a malformed escape), (URL/UTM parse
inside its own `try`, affecting only the forwarded payload), email/phone/
name validation, manual rate accounting with ceiling 4, lead id,
best-effort Bitrix forward, success reply. -/
def heyHandler (origin : Option String) (body : HeyBody)
    (history : List Int) (now : Int) (rand : List Nat) (_bitrix : BitrixOutcome) :
    LeadResponse × List Int :=
  if originBlocked origin then
    (⟨403, false, "Invalid origin", none⟩, history)
  else if heyHoneypot body then
    (⟨400, false, "Bot detected (honeypot)", none⟩, history)
  else
    match body.answers with
    | none => (⟨400, false, "Invalid structure", none⟩, history)
    | some answers =>
      let name := heyName answers
      let email := mapValue answers "email"
      let phone := mapValue answers "phone"
      if !decodeURIOk (hiddenField body "page_location") then
        (⟨500, false, "Server error", none⟩, history)
      else if email = "" || !emailLoose email then
        (⟨400, false, "Invalid email", none⟩, history)
      else if phone = "" || (digitsOf phone).length < 7 then
        (⟨400, false, "Invalid phone", none⟩, history)
      else if name = "" || name.data.length < 2 then
        (⟨400, false, "Invalid name", none⟩, history)
      else
        let newHistory := rateStep now history
        if 4 < newHistory.length then
          (⟨429, false, "Too many requests", none⟩, newHistory)
        else
          (⟨200, true, "HeyForm lead saved", some (leadIdOf rand)⟩, newHistory)

/-! ## Zapier path (`/api/zapier` in `src/server.js`) -/

/-- Key lookup in a JS object modelled as an association list. -/
def zGet (m : List (String × JVal)) (k : String) : JVal :=
  (((m.find? (fun kv => kv.1 == k)).map (·.2)).getD .undef)

/-- Does the object have the key? -/
def zHas (m : List (String × JVal)) (k : String) : Bool :=
  (m.find? (fun kv => kv.1 == k)).isSome

/-- Object spread: the keys of `b` in order, with values overridden by `p`
where present, then the new keys of `p`. -/
def zMerge (b p : List (String × JVal)) : List (String × JVal) :=
  (b.map fun kv => if zHas p kv.1 then (kv.1, zGet p kv.1) else kv) ++
    p.filter fun kv => !zHas b kv.1

/-- The body after the optional `JSON.parse(body.data)` merge: the merge
happens only when `data` is a string and the parse (supplied as an oracle,
`none` = parse threw and was caught) succeeds. -/
def zEffectiveBody (body : List (String × JVal))
    (parsed : Option (List (String × JVal))) : List (String × JVal) :=
  match zGet body "data", parsed with
  | .vstr _, some m => zMerge body m
  | _, _ => body

/-- The `lead` object assembled by `/api/zapier`: verbose form-field keys
first, then generic keys, then defaults. -/
structure ZLead where
  formName : JVal
  name : JVal
  email : JVal
  phone : JVal
  sku : JVal
  raw : List (String × JVal)
deriving DecidableEq, Repr

/-- Lead extraction of `/api/zapier`. -/
def zLeadOf (b : List (String × JVal)) : ZLead where
  formName := jor (zGet b "formName") (jor (zGet b "title") (.vstr "Unknown form"))
  name := jor (zGet b "(ID: bdSUOpyXgOTn) Full Name") (jor (zGet b "name") (.vstr ""))
  email := jor (zGet b "(ID: hK548GZNzLSJ) Email") (jor (zGet b "email") (.vstr ""))
  phone := jor (zGet b "(ID: gA2gCPB5cc4r) Contact Phone") (jor (zGet b "phone") (.vstr ""))
  sku := jor (zGet b "(ID: gpEXflAxGgen) SKU/Info") (jor (zGet b "sku") (.vstr ""))
  raw := b

/-- Response of `/api/zapier`. -/
structure ZResponse where
  status : Nat
  ok : Bool
  lead : ZLead
deriving DecidableEq, Repr

/-- The `/api/zapier` handler: optional `data` merge, lead extraction,
unconditional success reply.  The origin header of the request and the shared
`recentIps` window are taken as arguments to state that the handler never
consults or updates them. -/
def zapierHandler (_origin : Option String) (body : List (String × JVal))
    (parsed : Option (List (String × JVal))) (history : List Int) :
    ZResponse × List Int :=
  (⟨200, true, zLeadOf (zEffectiveBody body parsed)⟩, history)

/-! ## Fixtures: concrete requests used to instantiate the theorems -/

/-- A well-formed submission for the primary lead path. -/
def sampleBody : List (String × String) :=
  [("email", "a@b.com"), ("phone", "5551234567"), ("name", "Jo Ann"), ("sku", "X1")]

/-- The same submission carrying a Turnstile token, for the CAPTCHA revision. -/
def captchaBody : List (String × String) :=
  sampleBody ++ [("turnstileToken", "tok")]

/-- Eight bytes of "randomness" standing in for `crypto.randomBytes(8)`. -/
def sampleRand : List Nat := [1, 2, 3, 4, 5, 6, 7, 8]

/-- A submission whose extra `hp_trap` field is filled, as a bot would. -/
def hpBody : List (String × String) :=
  sampleBody ++ [("hp_trap", "http://spam.example")]
/-- A submission missing its `sku` field. -/
def noSkuBody : List (String × String) :=
  [("email", "a@b.com"), ("phone", "5551234567"), ("name", "Jo Ann")]
/-- A Latin letter, as the claim words it. -/
def LatinLetter (c : Char) : Prop := ('A' ≤ c ∧ c ≤ 'Z') ∨ ('a' ≤ c ∧ c ≤ 'z')

instance (c : Char) : Decidable (LatinLetter c) := by
  unfold LatinLetter; infer_instance
/-- A Cyrillic character of the class `[А-Яа-яЁё]` the handler tests. -/
def CyrillicChar (c : Char) : Prop := ('А' ≤ c ∧ c ≤ 'я') ∨ c = 'Ё' ∨ c = 'ё'

instance (c : Char) : Decidable (CyrillicChar c) := by
  unfold CyrillicChar; infer_instance
/-- A valid submission whose Latin name is paired with a phone whose
digits start with 7. -/
def latinSevenBody : List (String × String) :=
  [("email", "a@b.com"), ("phone", "+7 123 456 789"), ("name", "Jo Ann"), ("sku", "X1")]
/-- The HeyForm scenario-4 answers: email, phone and full name, no
SKU-titled answer. -/
def scenario4Answers : List HeyAnswer :=
  [⟨.tstr "Email", .vstr "x@y.com"⟩,
   ⟨.tstr "Contact Phone", .vstr "1234567890"⟩,
   ⟨.tstr "Full Name", .vstr "A B"⟩]

/-- The HeyForm scenario-4 payload. -/
def scenario4Body : HeyBody := ⟨some scenario4Answers, [], "F", []⟩

/-! ## Helper lemmas -/

/-- The executable regex test agrees with the declarative reading of the
loose email pattern. -/
theorem emailLoose_iff (s : String) : emailLoose s = true ↔ LooseEmail s := by
  unfold emailLoose LooseEmail
  simp only [List.any_eq_true, List.mem_range, decide_eq_true_eq]
  constructor
  · rintro ⟨i, _, j, _, h⟩
    exact ⟨i, j, h⟩
  · rintro ⟨i, j, h⟩
    obtain ⟨h1, h2, h3, -⟩ := id h
    exact ⟨i, by omega, j, by omega, h⟩

/-- Hex encoding doubles the byte count. -/
theorem bytesToHex_length (bs : List Nat) :
    (bytesToHex bs).data.length = 2 * bs.length := by
  induction bs with
  | nil => rfl
  | cons b bs ih =>
    simp only [bytesToHex, List.map_cons, List.flatten_cons, byteHex] at *
    simp only [List.length_append, List.length_cons, List.length_nil] at *
    omega

/-- A string with a non-blank trim is itself truthy (non-empty). -/
theorem ne_empty_of_trim_ne_empty {s : String} (h : jsTrim s ≠ "") : s ≠ "" := by
  intro he
  subst he
  exact h rfl

/-- Appending one submission to the processed prefix folds to one `rateStep`. -/
theorem windowAfter_concat (l : List Int) (a : Int) :
    windowAfter (l ++ [a]) = rateStep a (windowAfter l) := by
  simp [windowAfter, List.foldl_append]

/-- When every pair of submission times lies within the 60-second window,
no entry is ever pruned: after `k` submissions the stored window is exactly
the first `k` timestamps. -/
theorem windowAfter_take_eq (ts : List Int)
    (hspan : ∀ t ∈ ts, ∀ u ∈ ts, t - u < 60000) :
    ∀ k, k ≤ ts.length → windowAfter (ts.take k) = ts.take k := by
  intro k
  induction k with
  | zero => intro _; rfl
  | succ k ih =>
    intro hk
    have hklt : k < ts.length := Nat.lt_of_succ_le hk
    rw [← List.take_concat_get ts k hklt, List.concat_eq_append,
      windowAfter_concat, ih (Nat.le_of_lt hklt)]
    unfold rateStep pruneWindow
    congr 1
    apply List.filter_eq_self.mpr
    intro u hu
    have hut : u ∈ ts := List.take_subset _ _ hu
    have hat : ts.get ⟨k, hklt⟩ ∈ ts := ts.get_mem _ _
    simpa using hspan _ hat _ hut

/-! ## Claims -/

/-- Claim C1, as stated: with CAPTCHA verification enabled, a tokened submission
proceeds past the CAPTCHA stage only when the provider reports success and
any supplied risk score is at least `0.5`; success with a score below `0.5`
is rejected as a captcha failure.  The code never reads the score:
counterexample where the provider replies `success: true, score: 0.3`
(`0.3 < 0.5`) and the handler nevertheless answers 200/`ok`. -/
theorem captcha_low_score_accepted_cex :
    (3 / 10 : ℚ) < 1 / 2 ∧
    (leadHandlerV0 captchaBody (.reply ⟨true, some (3 / 10)⟩) sampleRand).ok = true ∧
    (leadHandlerV0 captchaBody (.reply ⟨true, some (3 / 10)⟩) sampleRand).status = 200 := by
  refine ⟨by norm_num, by decide, by decide⟩

/-- Claim C1, amended.  For a submission that reaches the CAPTCHA stage
(no `hp_field`, valid fields, token present), the request proceeds past the
CAPTCHA stage iff the provider reports success; on failure it is rejected
403 "Captcha verification failed"; the risk score is never consulted. -/
theorem captcha_success_gate (body : List (String × String))
    (r : TurnstileReply) (rand : List Nat)
    (hhp : fieldOr body "hp_field" = "")
    (hval : validatePayload body = true)
    (htok : fieldOr body "turnstileToken" ≠ "") :
    ((leadHandlerV0 body (.reply r) rand).ok = true ↔ r.success = true) ∧
    (r.success = false →
      leadHandlerV0 body (.reply r) rand
        = ⟨403, false, "Captcha verification failed", none⟩) ∧
    (∀ q : Option ℚ,
      leadHandlerV0 body (.reply ⟨r.success, q⟩) rand
        = leadHandlerV0 body (.reply r) rand) := by
  obtain ⟨s, q0⟩ := r
  cases s <;>
    simp [leadHandlerV0, hhp, hval, htok]

/-- Witness for `captcha_success_gate` at a concrete tokened submission and
a failing provider reply. -/
theorem captcha_success_gate_witness :
    ((leadHandlerV0 captchaBody (.reply ⟨false, none⟩) sampleRand).ok = true
        ↔ (TurnstileReply.mk false none).success = true) ∧
    ((TurnstileReply.mk false none).success = false →
      leadHandlerV0 captchaBody (.reply ⟨false, none⟩) sampleRand
        = ⟨403, false, "Captcha verification failed", none⟩) ∧
    (∀ q : Option ℚ,
      leadHandlerV0 captchaBody (.reply ⟨(TurnstileReply.mk false none).success, q⟩) sampleRand
        = leadHandlerV0 captchaBody (.reply ⟨false, none⟩) sampleRand) :=
  captcha_success_gate captchaBody ⟨false, none⟩ sampleRand
    (by decide) (by decide) (by decide)

/-- Claim C2: primary lead path, ceiling 3: for a fixed IP submitting at
times `ts` (all within one 60-second span) with an otherwise-accepted
request, the `k`-th submission — evaluated against the window accumulated
by the first `k - 1` — answers 200 when `k ≤ 3` and 429 afterwards; the
timestamp is recorded either way (the stored window after the `k`-th
submission is exactly the first `k` timestamps); and once every stored
entry is at least 60 seconds old, the next submission sees a fresh window
`[now]` of count 1 and succeeds. -/
theorem lead_rate_window (origin : Option String) (body : List (String × String))
    (rand : List Nat) (bx : BitrixOutcome) (ts : List Int) (k : Nat)
    (hok : originBlocked origin = false)
    (hhp : honeypotTriggered body = false)
    (hval : validatePayload body = true)
    (hsus : suspiciousCombo body = false)
    (hspan : ∀ t ∈ ts, ∀ u ∈ ts, t - u < 60000)
    (hk1 : 1 ≤ k) (hk2 : k ≤ ts.length) :
    ((leadHandler origin body (windowAfter (ts.take (k - 1))) (ts.getD (k - 1) 0) rand bx).1.status
        = if k ≤ 3 then 200 else 429) ∧
    ((leadHandler origin body (windowAfter (ts.take (k - 1))) (ts.getD (k - 1) 0) rand bx).2
        = ts.take k) ∧
    (∀ h now, (∀ t ∈ h, 60000 ≤ now - t) →
      (leadHandler origin body h now rand bx).1.status = 200 ∧
      (leadHandler origin body h now rand bx).2 = [now]) := by
  have hlt : k - 1 < ts.length := by omega
  have hwa := windowAfter_take_eq ts hspan (k - 1) (by omega)
  set w := ts.getD (k - 1) 0 with hw
  have hgd : w = ts.get ⟨k - 1, hlt⟩ := by
    rw [hw]
    simp [List.getD_eq_getElem?_getD, List.getElem?_eq_getElem hlt]
  have hstep : rateStep w (ts.take (k - 1)) = ts.take k := by
    unfold rateStep pruneWindow
    have hfil : (ts.take (k - 1)).filter
        (fun t => decide (w - t < 60000)) = ts.take (k - 1) := by
      apply List.filter_eq_self.mpr
      intro u hu
      have hut : u ∈ ts := List.take_subset _ _ hu
      have hmem : w ∈ ts := by
        rw [hgd]; exact ts.get_mem _ _
      simpa using hspan _ hmem _ hut
    rw [hfil, hgd]
    have hcat := List.take_concat_get ts (k - 1) hlt
    rw [List.concat_eq_append] at hcat
    have hsk : k - 1 + 1 = k := by omega
    rw [hsk] at hcat
    simpa using hcat
  have hlen : (rateStep w (ts.take (k - 1))).length = k := by
    rw [hstep, List.length_take]; omega
  have hfresh : ∀ (h : List Int) (now : Int), (∀ t ∈ h, 60000 ≤ now - t) →
      rateStep now h = [now] := by
    intro h now hold
    unfold rateStep pruneWindow
    have hnil : h.filter (fun t => decide (now - t < 60000)) = [] := by
      apply List.filter_eq_nil_iff.mpr
      intro a ha
      simp only [decide_eq_true_eq]
      have := hold a ha
      omega
    rw [hnil]
    rfl
  refine ⟨?_, ?_, ?_⟩
  · rw [hwa]
    by_cases hk3 : k ≤ 3
    · have hnr : ¬ 3 < (rateStep w (ts.take (k - 1))).length := by omega
      simp [leadHandler, hok, hhp, hval, hsus, hnr, hk3]
    · have hr : 3 < (rateStep w (ts.take (k - 1))).length := by omega
      simp [leadHandler, hok, hhp, hval, hsus, hr, hk3]
  · rw [hwa]
    simp only [leadHandler, hok, hhp, hval, hsus, Bool.false_eq_true, if_false,
      Bool.not_true, hstep]
    split <;> rfl
  · intro h now hold
    have h1 : rateStep now h = [now] := hfresh h now hold
    have h2 : ¬ 3 < (rateStep now h).length := by
      rw [h1]; simp
    constructor <;> simp [leadHandler, hok, hhp, hval, hsus, h2, h1]

/-- Witness for `lead_rate_window`: five submissions inside ten seconds;
shown at `k = 4`, whose verdict is 429 while the window still records all
four timestamps. -/
theorem lead_rate_window_witness :
    ((leadHandler none sampleBody
        (windowAfter (([0, 1000, 2000, 3000, 4000] : List Int).take (4 - 1)))
        (([0, 1000, 2000, 3000, 4000] : List Int).getD (4 - 1) 0) sampleRand .notConfigured).1.status
        = if 4 ≤ 3 then 200 else 429) ∧
    ((leadHandler none sampleBody
        (windowAfter (([0, 1000, 2000, 3000, 4000] : List Int).take (4 - 1)))
        (([0, 1000, 2000, 3000, 4000] : List Int).getD (4 - 1) 0) sampleRand .notConfigured).2
        = ([0, 1000, 2000, 3000, 4000] : List Int).take 4) ∧
    (∀ h now, (∀ t ∈ h, 60000 ≤ now - t) →
      (leadHandler none sampleBody h now sampleRand .notConfigured).1.status = 200 ∧
      (leadHandler none sampleBody h now sampleRand .notConfigured).2 = [now]) :=
  lead_rate_window none sampleBody sampleRand .notConfigured
    [0, 1000, 2000, 3000, 4000] 4
    (by decide) (by decide) (by decide) (by decide) (by decide)
    (by decide) (by decide)

/-- Claim C3, as stated: every request whose origin header is present,
non-empty and matches no allow-listed hostname is rejected 403.
Counterexample: the header `"/"` is present, non-empty and contains no
allow-list entry, yet the handler strips the trailing slash, finds the
empty (falsy) string and lets the request through to a 200. -/
theorem origin_slash_not_rejected_cex :
    (some "/" : Option String) ≠ none ∧
    "/" ≠ "" ∧
    (allowedOrigins.all fun a => !strIncludes a.data "/".data) = true ∧
    (leadHandler (some "/") sampleBody [] 0 sampleRand .notConfigured).1.status = 200 ∧
    (leadHandler (some "/") sampleBody [] 0 sampleRand .notConfigured).1.ok = true := by
  refine ⟨by simp, by decide, by decide, by decide, by decide⟩

/-- Claim C3, amended.  Every request whose origin header, after the
trailing-slash strip of the handler, is non-empty and contains no allow-listed
hostname as a substring is rejected 403 "Invalid origin" regardless of the
body and of the rate window (which is left untouched); a request with no
origin header passes the origin check. -/
theorem origin_guard (origin : String) (body : List (String × String))
    (hist : List Int) (now : Int) (rand : List Nat) (bx : BitrixOutcome)
    (h1 : stripSlash origin ≠ "")
    (h2 : ∀ a ∈ allowedOrigins, strIncludes a.data (stripSlash origin).data = false) :
    (leadHandler (some origin) body hist now rand bx).1
      = ⟨403, false, "Invalid origin", none⟩ ∧
    (leadHandler (some origin) body hist now rand bx).2 = hist ∧
    originBlocked none = false := by
  have hb : originBlocked (some origin) = true := by
    unfold originBlocked
    rw [Bool.and_eq_true]
    refine ⟨by simpa using h1, ?_⟩
    rw [Bool.not_eq_true']
    apply List.any_eq_false.mpr
    intro a ha
    simpa using h2 a ha
  refine ⟨?_, ?_, rfl⟩ <;> simp [leadHandler, hb]

/-- Witness for `origin_guard`: a hostile origin with an otherwise valid
body still answers 403 and leaves the window alone. -/
theorem origin_guard_witness :
    (leadHandler (some "https://evil.example") sampleBody [] 0 sampleRand .notConfigured).1
      = ⟨403, false, "Invalid origin", none⟩ ∧
    (leadHandler (some "https://evil.example") sampleBody [] 0 sampleRand .notConfigured).2 = [] ∧
    originBlocked none = false :=
  origin_guard "https://evil.example" sampleBody [] 0 sampleRand .notConfigured
    (by decide) (by decide)

/-- Claim C4: any submission carrying some field whose name starts with the
`hp_` honeypot prefix and whose value is non-blank after trimming is
rejected 400 "Bot detected (honeypot)" before validation ever runs — the
other fields are arbitrary — and the rate window is left untouched.
(The honeypot check runs after the origin guard, so the origin is assumed
to pass.) -/
theorem honeypot_reject (origin : Option String) (body : List (String × String))
    (hist : List Int) (now : Int) (rand : List Nat) (bx : BitrixOutcome)
    (h1 : originBlocked origin = false)
    (h2 : ∃ kv ∈ body, strStarts "hp_".data kv.1.data = true ∧ jsTrim kv.2 ≠ "") :
    (leadHandler origin body hist now rand bx).1
      = ⟨400, false, "Bot detected (honeypot)", none⟩ ∧
    (leadHandler origin body hist now rand bx).2 = hist := by
  have hhp : honeypotTriggered body = true := by
    apply List.any_eq_true.mpr
    obtain ⟨kv, hmem, hpre, htrim⟩ := h2
    refine ⟨kv, hmem, ?_⟩
    have hne : kv.2 ≠ "" := ne_empty_of_trim_ne_empty htrim
    simp [hpre, hne, htrim]
  constructor <;> simp [leadHandler, h1, hhp]

/-- Witness for `honeypot_reject`: an otherwise fully valid submission with
`hp_trap: "http://spam.example"` is still rejected as a bot. -/
theorem honeypot_reject_witness :
    (leadHandler none hpBody [] 0 sampleRand .notConfigured).1
      = ⟨400, false, "Bot detected (honeypot)", none⟩ ∧
    (leadHandler none hpBody [] 0 sampleRand .notConfigured).2 = [] :=
  honeypot_reject none hpBody [] 0 sampleRand .notConfigured (by decide)
    ⟨("hp_trap", "http://spam.example"), by decide, by decide, by decide⟩

/-- An optional-string test matching the `typeof` guards of `validatePayload`. -/
theorem opt_test_eq (p : String → Bool) (o : Option String) :
    (match o with | some x => p x | none => false) = true
      ↔ ∃ x, o = some x ∧ p x = true := by
  cases o <;> simp

/-- Claim C5: the validator passes exactly when the email field is present
and some "non-whitespace `@` non-whitespace `.` non-whitespace"
decomposition occurs in it, the phone is present with trimmed length ≥ 7,
the name is present with trimmed length ≥ 2, and the sku is present and
non-empty after trimming; when any of the four fails (and the request is
not stopped earlier), the caller sees only the generic 400
"Invalid input". -/
theorem validate_fields (body : List (String × String)) :
    (validatePayload body = true ↔
      ((∃ e, getField body "email" = some e ∧ LooseEmail e) ∧
       (∃ p, getField body "phone" = some p ∧ 7 ≤ (trimChars p.data).length) ∧
       (∃ n, getField body "name" = some n ∧ 2 ≤ (trimChars n.data).length) ∧
       (∃ s, getField body "sku" = some s ∧ 0 < (trimChars s.data).length))) ∧
    (∀ (origin : Option String) (hist : List Int) (now : Int) (rand : List Nat)
        (bx : BitrixOutcome),
      originBlocked origin = false → honeypotTriggered body = false →
      validatePayload body = false →
      (leadHandler origin body hist now rand bx).1
        = ⟨400, false, "Invalid input", none⟩) := by
  constructor
  · simp only [validatePayload, Bool.and_eq_true, opt_test_eq, decide_eq_true_eq,
      emailLoose_iff]
    tauto
  · intro origin hist now rand bx h1 h2 h3
    simp [leadHandler, h1, h2, h3]

/-- Witness for `validate_fields`: dropping `sku` from a valid body makes
the validator fail and the handler answer the generic invalid-input 400. -/
theorem validate_fields_witness :
    validatePayload noSkuBody = false ∧
    (leadHandler none noSkuBody [] 0 sampleRand .notConfigured).1
      = ⟨400, false, "Invalid input", none⟩ :=
  ⟨by decide,
   (validate_fields noSkuBody).2 none [] 0 sampleRand .notConfigured
     (by decide) (by decide) (by decide)⟩

/-- Claim C6: once the origin, honeypot, validation, suspicious-combo and
rate checks have all passed, the response does not depend on the Bitrix
webhook call: whether it is unconfigured, replies, fails on the network or
returns an unparsable body, the caller gets 200, `ok: true` and the
generated lead id. -/
theorem crm_forward_isolated (origin : Option String) (body : List (String × String))
    (hist : List Int) (now : Int) (rand : List Nat)
    (h1 : originBlocked origin = false)
    (h2 : honeypotTriggered body = false)
    (h3 : validatePayload body = true)
    (h4 : suspiciousCombo body = false)
    (h5 : (rateStep now hist).length ≤ 3) :
    ∀ bx : BitrixOutcome,
      (leadHandler origin body hist now rand bx).1
        = ⟨200, true, "Lead saved", some (leadIdOf rand)⟩ := by
  intro bx
  have hnr : ¬ 3 < (rateStep now hist).length := by omega
  simp [leadHandler, h1, h2, h3, h4, hnr]

/-- Witness for `crm_forward_isolated`: the concrete valid submission gets
the same 200 whether the webhook call fails on the network or returns an
unparsable body. -/
theorem crm_forward_isolated_witness :
    (leadHandler none sampleBody [] 0 sampleRand .networkError).1
      = ⟨200, true, "Lead saved", some (leadIdOf sampleRand)⟩ ∧
    (leadHandler none sampleBody [] 0 sampleRand .parseError).1
      = ⟨200, true, "Lead saved", some (leadIdOf sampleRand)⟩ :=
  ⟨crm_forward_isolated none sampleBody [] 0 sampleRand
     (by decide) (by decide) (by decide) (by decide) (by decide) .networkError,
   crm_forward_isolated none sampleBody [] 0 sampleRand
     (by decide) (by decide) (by decide) (by decide) (by decide) .parseError⟩

/-- Claim C7: on the primary lead path, a submission that passes field
validation but whose trimmed name is non-empty and all Latin letters or
spaces while its digit-stripped phone starts with `7`, or whose name
contains a Cyrillic character while the digit-stripped phone starts with
`1`, is rejected with the non-standard status 450 and the
suspicious-combo message, before any rate accounting. -/
theorem suspicious_combo_450 (origin : Option String) (body : List (String × String))
    (hist : List Int) (now : Int) (rand : List Nat) (bx : BitrixOutcome)
    (h1 : originBlocked origin = false)
    (h2 : honeypotTriggered body = false)
    (h3 : validatePayload body = true)
    (h4 : ((jsTrim (fieldOr body "name")).data ≠ [] ∧
            (∀ c ∈ (jsTrim (fieldOr body "name")).data, LatinLetter c ∨ c = ' ') ∧
            (digitsOf (fieldOr body "phone")).head? = some '7') ∨
          ((∃ c ∈ (jsTrim (fieldOr body "name")).data, CyrillicChar c) ∧
            (digitsOf (fieldOr body "phone")).head? = some '1')) :
    (leadHandler origin body hist now rand bx).1
      = ⟨450, false, "Suspicious name+phone combo", none⟩ ∧
    (leadHandler origin body hist now rand bx).2 = hist := by
  have hsus : suspiciousCombo body = true := by
    unfold suspiciousCombo
    rcases h4 with ⟨hne, hall, hph⟩ | ⟨⟨c, hc, hcyr⟩, hph⟩
    · rw [Bool.or_eq_true]
      left
      rw [Bool.and_eq_true]
      constructor
      · unfold isLatinName
        rw [Bool.and_eq_true]
        refine ⟨by simpa using hne, ?_⟩
        apply List.all_eq_true.mpr
        intro c hc
        rcases hall c hc with hlat | hsp
        · rcases hlat with ⟨ha, hb⟩ | ⟨ha, hb⟩ <;> simp [ha, hb]
        · subst hsp; simp [jsWs]
      · rw [hph]; rfl
    · rw [Bool.or_eq_true]
      right
      rw [Bool.and_eq_true]
      constructor
      · unfold hasCyrillic
        apply List.any_eq_true.mpr
        refine ⟨c, hc, ?_⟩
        rcases hcyr with ⟨ha, hb⟩ | hb | hb
        · simp [ha, hb]
        · simp [hb]
        · simp [hb]
      · rw [hph]; rfl
  constructor <;> simp [leadHandler, h1, h2, h3, hsus]

/-- Witness for `suspicious_combo_450`: "Jo Ann" with phone
`+7 123 456 789` answers 450 and leaves the rate window untouched. -/
theorem suspicious_combo_450_witness :
    (leadHandler none latinSevenBody [] 0 sampleRand .notConfigured).1
      = ⟨450, false, "Suspicious name+phone combo", none⟩ ∧
    (leadHandler none latinSevenBody [] 0 sampleRand .notConfigured).2 = [] :=
  suspicious_combo_450 none latinSevenBody [] 0 sampleRand .notConfigured
    (by decide) (by decide) (by decide) (by decide)

/-- Claim C8, as stated: the lead id returned to the caller encodes 128 bits
of randomness, i.e. 32 hex characters.  The generator is
`crypto.randomBytes(8).toString("hex")`: an accepted concrete submission
receives a 16-character id, not 32. -/
theorem leadid_sixteen_hex_cex :
    (leadHandler none sampleBody [] 0 sampleRand .notConfigured).1.lead_id
      = some "0102030405060708" ∧
    ("0102030405060708" : String).data.length = 16 ∧
    ("0102030405060708" : String).data.length ≠ 32 := by
  refine ⟨by decide, by decide, by decide⟩

/-- Claim C8, amended.  For every accepted submission the lead id is the
hex encoding of the 8 random bytes drawn (64 bits): a 16-character hex
string. -/
theorem leadid_hex64 (origin : Option String) (body : List (String × String))
    (hist : List Int) (now : Int) (rand : List Nat) (bx : BitrixOutcome)
    (h1 : originBlocked origin = false)
    (h2 : honeypotTriggered body = false)
    (h3 : validatePayload body = true)
    (h4 : suspiciousCombo body = false)
    (h5 : (rateStep now hist).length ≤ 3)
    (hr : rand.length = 8) :
    (leadHandler origin body hist now rand bx).1.lead_id = some (bytesToHex rand) ∧
    (bytesToHex rand).data.length = 16 := by
  have hnr : ¬ 3 < (rateStep now hist).length := by omega
  have htake : rand.take 8 = rand := by
    rw [← hr, List.take_length]
  constructor
  · simp [leadHandler, h1, h2, h3, h4, hnr, leadIdOf, htake]
  · rw [bytesToHex_length, hr]

/-- Witness for `leadid_hex64`: the id of the concrete accepted submission is
the hex of the 8 sampled bytes, 16 characters long. -/
theorem leadid_hex64_witness :
    (leadHandler none sampleBody [] 0 sampleRand .notConfigured).1.lead_id
      = some (bytesToHex sampleRand) ∧
    (bytesToHex sampleRand).data.length = 16 :=
  leadid_hex64 none sampleBody [] 0 sampleRand .notConfigured
    (by decide) (by decide) (by decide) (by decide) (by decide) (by decide)

/-- Claim C9: on the HeyForm path, a payload whose answers give a loose-valid
email, a phone with at least 7 digits and a name of length at least 2, but
no answer whose title contains the SKU keyword, normalizes its sku to the
empty string and still succeeds: the SKU is not required on this path.
(The surrounding checks — origin, honeypot, hidden-field decode, rate
ceiling 4 — are assumed to pass, as in the scenario of the spec.) -/
theorem heyform_sku_optional (origin : Option String) (body : HeyBody)
    (answers : List HeyAnswer) (hist : List Int) (now : Int) (rand : List Nat)
    (bx : BitrixOutcome)
    (hans : body.answers = some answers)
    (h1 : originBlocked origin = false)
    (h2 : heyHoneypot body = false)
    (hdec : decodeURIOk (hiddenField body "page_location") = true)
    (hemail : mapValue answers "email" ≠ "" ∧
      emailLoose (mapValue answers "email") = true)
    (hphone : 7 ≤ (digitsOf (mapValue answers "phone")).length)
    (hname : 2 ≤ (heyName answers).data.length)
    (hsku : ∀ a ∈ answers,
      strIncludes (lowerChars "SKU/Info".data) (lowerChars (normalizeTitle a.title).data)
        = false)
    (hrate : (rateStep now hist).length ≤ 4) :
    heySku answers = "" ∧
    (heyHandler origin body hist now rand bx).1
      = ⟨200, true, "HeyForm lead saved", some (leadIdOf rand)⟩ ∧
    (heyHandler origin body hist now rand bx).2 = rateStep now hist := by
  have hskueq : heySku answers = "" := by
    unfold heySku mapValue
    have hfind : answers.find? (fun a =>
        strIncludes (lowerChars "SKU/Info".data)
          (lowerChars (normalizeTitle a.title).data)) = none := by
      apply List.find?_eq_none.mpr
      intro a ha
      simp [hsku a ha]
    rw [hfind]
  have hpne : mapValue answers "phone" ≠ "" := by
    intro he
    rw [he] at hphone
    simp [digitsOf] at hphone
  have hnne : heyName answers ≠ "" := by
    intro he
    rw [he] at hname
    simp at hname
  have hnot4 : ¬ 4 < (rateStep now hist).length := by omega
  have hphlt : ¬ (digitsOf (mapValue answers "phone")).length < 7 := by omega
  have hnmlt : ¬ (heyName answers).data.length < 2 := by omega
  have hnmlt2 : ¬ (heyName answers).length < 2 := hnmlt
  refine ⟨hskueq, ?_, ?_⟩ <;>
  · simp only [heyHandler, hans, h1, h2, hdec]
    simp [hemail.1, hemail.2, hpne, hphlt, hnne, hnmlt, hnmlt2, hnot4]

/-- Witness for `heyform_sku_optional`: the scenario-4 payload of the spec. -/
theorem heyform_sku_optional_witness :
    heySku scenario4Answers = "" ∧
    (heyHandler none scenario4Body [] 0 sampleRand .notConfigured).1
      = ⟨200, true, "HeyForm lead saved", some (leadIdOf sampleRand)⟩ ∧
    (heyHandler none scenario4Body [] 0 sampleRand .notConfigured).2
      = rateStep 0 [] :=
  heyform_sku_optional none scenario4Body scenario4Answers [] 0 sampleRand
    .notConfigured rfl (by decide) (by decide) (by decide)
    ⟨by decide, by decide⟩ (by decide) (by decide) (by decide) (by decide)

/-- Claim C10: the zapier path runs no origin, honeypot, validation or rate
check and forwards nothing: whatever the body, the optional `data`-merge
outcome and whatever origin header the request carries, the handler
answers 200 with `ok: true` and the extracted lead, and the shared rate
window is returned untouched. -/
theorem zapier_unconditional_ok (o1 o2 : Option String)
    (body : List (String × JVal)) (parsed : Option (List (String × JVal)))
    (hist : List Int) :
    (zapierHandler o1 body parsed hist).1.status = 200 ∧
    (zapierHandler o1 body parsed hist).1.ok = true ∧
    (zapierHandler o1 body parsed hist).1.lead = zLeadOf (zEffectiveBody body parsed) ∧
    (zapierHandler o1 body parsed hist).2 = hist ∧
    zapierHandler o1 body parsed hist = zapierHandler o2 body parsed hist :=
  ⟨rfl, rfl, rfl, rfl, rfl⟩

end LeadIntake
